import Mathlib

/-
Shallow embedding of src/grade.py (swaig-grader).

The program grades an AI-agent submission against a rubric of checks.  Each
check shells out to the external `swaig-test` command; the external process is
modelled as a function from the argument list to an outcome (normal completion
with exit code / stdout / stderr, a timeout, or a launch failure), exactly the
three cases distinguished by `run_swaig_test` in the source.  `json.loads` is
a Python-stdlib collaborator, modelled as an explicit parsing function passed
to the parts of the code that use it.  Python floats are modelled as exact
rationals; `round(x, 1)` is modelled as round-half-to-even at one decimal.
Strings are modelled at the character-list level; `str.lower()` is modelled on
its ASCII fragment (every concrete string appearing in the claims is ASCII).
-/

attribute [local semireducible] Rat.mul Rat.add Rat.sub Rat.inv

namespace Grader

/-! ### JSON values (the result of `json.loads` on the dump output) -/

/-- A parsed JSON tree, as produced by `json.loads` (src/grade.py:43). -/
inductive JValue where
  | null
  | bool (b : Bool)
  | num (q : ℚ)
  | str (s : String)
  | arr (elems : List JValue)
  | obj (fields : List (String × JValue))

/-! ### Path resolution (src/grade.py:54-71, `check_path_exists`) -/

/-- Split a character list on `.` separators; `Python str.split(".")`
for the single-character separator actually used by the source. -/
def splitOnDot : List Char → List (List Char)
  | [] => [[]]
  | c :: rest =>
    let r := splitOnDot rest
    if c = '.' then [] :: r
    else
      match r with
      | s :: ss => (c :: s) :: ss
      | [] => [[c]]

/-- src/grade.py:56: `path.replace("[", ".").replace("]", "").split(".")`.
Both replaced patterns are single characters, so the two `replace` calls are a
character map (`[` to `.`) followed by deletion of every `]`. -/
def pathParts (path : String) : List String :=
  (splitOnDot ((path.toList.map (fun c => if c = '[' then '.' else c)).filter
    (fun c => c ≠ ']'))).map String.mk

/-- Accumulating digit reader used by `parsePyInt`. -/
def digitsToNat : List Char → ℕ → Option ℕ
  | [], acc => some acc
  | c :: rest, acc =>
    if c.isDigit then digitsToNat rest (10 * acc + (c.toNat - 48)) else none

/-- Python `int(part)` (src/grade.py:65) on its core fragment: an optional
sign followed by one or more ASCII digits.  (Python `int` additionally strips
whitespace and allows underscores between digits and non-ASCII digits; no
path segment exercised by a claim uses those.) -/
def parsePyInt (s : String) : Option ℤ :=
  match s.toList with
  | [] => none
  | '-' :: rest =>
    if rest.isEmpty then none else (digitsToNat rest 0).map (fun n => -(Int.ofNat n))
  | '+' :: rest =>
    if rest.isEmpty then none else (digitsToNat rest 0).map (fun n => Int.ofNat n)
  | cs => (digitsToNat cs 0).map (fun n => Int.ofNat n)

/-- Python list indexing `current[idx]` (src/grade.py:66): a negative index
has the length added once; the result exists when the adjusted index is in
range, otherwise `IndexError` (here `none`). -/
def pyIndex (xs : List JValue) (i : ℤ) : Option JValue :=
  let j : ℤ := if i < 0 then i + (xs.length : ℤ) else i
  if h : 0 ≤ j ∧ j < (xs.length : ℤ) then
    some (xs.get ⟨j.toNat, by omega⟩)
  else none

/-- Python `part in current` / `current[part]` for a dict
(src/grade.py:61-62), on the association-list model of a JSON object. -/
def objLookup (fields : List (String × JValue)) (key : String) : Option JValue :=
  (fields.find? (fun kv => kv.1 == key)).map (fun kv => kv.2)

/-- One step of the walk in `check_path_exists`: the value a non-empty
segment resolves to at the current node, if any.  A mapping resolves by key
lookup, a sequence by parsed integer index, anything else fails. -/
def lookupStep (cur : JValue) (part : String) : Option JValue :=
  match cur with
  | JValue.obj fields => objLookup fields part
  | JValue.arr xs => (parsePyInt part).bind (pyIndex xs)
  | _ => none

/-- The `for part in parts` loop of `check_path_exists` (src/grade.py:58-70):
empty segments are skipped; a dict is entered by key when the key is present;
a list is entered by parsed index when the index is in range; any other
situation returns `False` immediately. -/
def resolveParts : List String → JValue → Bool
  | [], _ => true
  | part :: rest, current =>
    if part = "" then resolveParts rest current
    else
      match current with
      | JValue.obj fields =>
        match objLookup fields part with
        | some v => resolveParts rest v
        | none => false
      | JValue.arr xs =>
        match (parsePyInt part).bind (pyIndex xs) with
        | some v => resolveParts rest v
        | none => false
      | _ => false

/-- src/grade.py:54-71, `check_path_exists(data, path)`. -/
def check_path_exists (data : JValue) (path : String) : Bool :=
  resolveParts (pathParts path) data

/-! ### The external `swaig-test` collaborator (src/grade.py:14-26) -/

/-- Captured output of a completed `subprocess.run` call. -/
structure ProcOut where
  returncode : ℤ
  stdout : String
  stderr : String
  deriving DecidableEq

/-- Outcome of one external invocation: normal completion, a
`subprocess.TimeoutExpired`, or any other launch exception with its message. -/
inductive ProcResult where
  | done (out : ProcOut)
  | timeout
  | failure (msg : String)
  deriving DecidableEq

/-- The external process boundary: what `subprocess.run` yields for a given
argument list.  (The source always calls with the default 30-second timeout;
the timeout outcome is the `ProcResult.timeout` case.) -/
abbrev Env := List String → ProcResult

/-- src/grade.py:14-26, `run_swaig_test`: build the command line, run it, and
absorb a timeout into `(124, "", "Timeout exceeded")` and any launch
exception into `(1, "", str(e))`. -/
def run_swaig_test (env : Env) (agent_file : String) (args : List String)
    (agent_class : Option String) : ℤ × String × String :=
  let cmd := ["swaig-test", agent_file] ++
    (match agent_class with
     | some c => ["--agent-class", c]
     | none => []) ++ args
  match env cmd with
  | ProcResult.done out => (out.returncode, out.stdout, out.stderr)
  | ProcResult.timeout => (124, "", "Timeout exceeded")
  | ProcResult.failure msg => (1, "", msg)

/-! ### Rubric data model (the fields read out of grading.yaml) -/

/-- One entry of a check's `require` list: `req.get("path", "")` /
`req.get("text", "")` (src/grade.py:46, 120). -/
structure Require where
  path : Option String := none
  text : Option String := none
  deriving DecidableEq

/-- One rubric check, with the fields the source reads via `.get`; an absent
field is `none` and the source's `.get` default is applied at each use site. -/
structure CheckSpec where
  id : Option String := none
  name : Option String := none
  type : Option String := none
  points : Option ℤ := none
  agent_class : Option String := none
  function : Option String := none
  args : List (String × String) := []
  expect_stdout_contains : List String := []
  require : List Require := []
  deriving DecidableEq

/-- `config.get("assignment", {})` as used by `grade`: only `passing_score`
is read (src/grade.py:190). -/
structure Assignment where
  passing_score : Option ℚ := none
  deriving DecidableEq

/-- `config.get("feedback", {})`: the pass/fail summary templates
(src/grade.py:195, 197). -/
structure FeedbackConfig where
  pass : Option String := none
  fail : Option String := none
  deriving DecidableEq

/-- The loaded grading.yaml as consumed by `grade` (src/grade.py:141-143). -/
structure RubricConfig where
  assignment : Assignment := {}
  checks : List CheckSpec := []
  feedback : FeedbackConfig := {}
  deriving DecidableEq

/-- One entry of `results["checks"]` (src/grade.py:160-177). -/
structure CheckResult where
  id : String
  name : String
  max_points : ℤ
  points : ℤ
  passed : Bool
  output : String
  deriving DecidableEq

/-- The `results` dict returned by `grade` (src/grade.py:145-199). -/
structure Report where
  assignment : Assignment
  checks : List CheckResult
  score : ℤ
  max_score : ℤ
  percentage : ℚ
  passed : Bool
  feedback : List String
  deriving DecidableEq

/-! ### String helpers (Python `in` and `str.lower`) -/

/-- Python substring test `needle in hay`, on the character-list model. -/
def listContains (needle : List Char) : List Char → Bool
  | [] => needle.isEmpty
  | c :: rest => needle.isPrefixOf (c :: rest) || listContains needle rest

/-- Python `needle in hay` for strings. -/
def strContains (hay needle : String) : Bool :=
  listContains needle.toList hay.toList

/-- Python `str.lower()` on one character (ASCII fragment). -/
def pyLower (c : Char) : Char :=
  if c.isUpper then Char.ofNat (c.toNat + 32) else c

/-- Python `str.lower()` (ASCII fragment). -/
def strLower (s : String) : String :=
  String.mk (s.toList.map pyLower)

/-! ### The five check handlers (src/grade.py:29-124) -/

/-- src/grade.py:29-33, `check_instantiate`: pass iff exit code 0; the
diagnostic is stderr on failure and empty on success. -/
def check_instantiate (env : Env) (agent_file : String) (config : CheckSpec) :
    Bool × String :=
  let r := run_swaig_test env agent_file ["--list-tools"] config.agent_class
  (decide (r.1 = 0), if r.1 ≠ 0 then r.2.2 else "")

/-- The `for req in config.get("require", [])` loop of `check_swml_valid`
(src/grade.py:45-48): the first required path that does not resolve. -/
def firstMissingPath (swml : JValue) : List Require → Option String
  | [] => none
  | req :: rest =>
    let path := req.path.getD ""
    if check_path_exists swml path then firstMissingPath swml rest
    else some path

/-- src/grade.py:36-51, `check_swml_valid`.  `json_loads` is the Python
`json.loads` collaborator: `Except.error e` is a `JSONDecodeError` whose
message is `e`. -/
def check_swml_valid (json_loads : String → Except String JValue) (env : Env)
    (agent_file : String) (config : CheckSpec) : Bool × String :=
  let r := run_swaig_test env agent_file ["--dump-swml", "--raw"] config.agent_class
  if r.1 ≠ 0 then (false, r.2.2)
  else
    match json_loads r.2.1 with
    | Except.error e => (false, "Invalid JSON: " ++ e)
    | Except.ok swml =>
      match firstMissingPath swml config.require with
      | some path => (false, "Missing: " ++ path)
      | none => (true, "")

/-- src/grade.py:74-83, `check_function_exists`: pass iff exit 0 and the
configured function name (default `""`) is a substring of stdout. -/
def check_function_exists (env : Env) (agent_file : String) (config : CheckSpec) :
    Bool × String :=
  let r := run_swaig_test env agent_file ["--list-tools"] config.agent_class
  if r.1 ≠ 0 then (false, r.2.2)
  else
    let func_name := config.function.getD ""
    if strContains r.2.1 func_name then (true, "")
    else (false, "Function \x27" ++ func_name ++ "\x27 not found")

/-- The argument list built by `check_exec` (src/grade.py:92-94): `--exec`,
the function name, then a `--key value` pair per `args` entry. -/
def execArgs (config : CheckSpec) : List String :=
  ["--exec", config.function.getD ""] ++
    (config.args.map (fun kv => ["--" ++ kv.1, kv.2])).flatten

/-- The `for substring in expect.get("stdout_contains", [])` loop of
`check_exec` (src/grade.py:104-106): the first expected string whose
lowercasing is not a substring of the lowercased stdout. -/
def firstMissingOutput (stdout_lower : String) : List String → Option String
  | [] => none
  | s :: rest =>
    if strContains stdout_lower (strLower s) then firstMissingOutput stdout_lower rest
    else some s

/-- src/grade.py:86-108, `check_exec`: run the function, then require every
`expect.stdout_contains` entry case-insensitively in stdout. -/
def check_exec (env : Env) (agent_file : String) (config : CheckSpec) :
    Bool × String :=
  let r := run_swaig_test env agent_file (execArgs config) config.agent_class
  if r.1 ≠ 0 then (false, r.2.2)
  else
    match firstMissingOutput (strLower r.2.1) config.expect_stdout_contains with
    | some s => (false, "Output missing: " ++ s)
    | none => (true, "")

/-- The `for req in config.get("require", [])` loop of `check_swml_contains`
(src/grade.py:119-122): the first non-empty required text that is not a
literal substring of stdout. -/
def firstMissingText (stdout : String) : List Require → Option String
  | [] => none
  | req :: rest =>
    let text := req.text.getD ""
    if (text != "") && (! strContains stdout text) then some text
    else firstMissingText stdout rest

/-- src/grade.py:111-124, `check_swml_contains`: dump the structured output
and require every non-empty `require[].text` as a literal (case-sensitive)
substring of raw stdout. -/
def check_swml_contains (env : Env) (agent_file : String) (config : CheckSpec) :
    Bool × String :=
  let r := run_swaig_test env agent_file ["--dump-swml", "--raw"] config.agent_class
  if r.1 ≠ 0 then (false, r.2.2)
  else
    match firstMissingText r.2.1 config.require with
    | some text => (false, "SWML missing: " ++ text)
    | none => (true, "")

/-! ### Dispatch and scoring (src/grade.py:127-199) -/

/-- src/grade.py:127-133, the `CHECK_HANDLERS` dispatch table:
`CHECK_HANDLERS.get(check_type)`. -/
def CHECK_HANDLERS (json_loads : String → Except String JValue)
    (check_type : String) : Option (Env → String → CheckSpec → Bool × String) :=
  if check_type = "instantiate" then some check_instantiate
  else if check_type = "swml_valid" then some (check_swml_valid json_loads)
  else if check_type = "function_exists" then some check_function_exists
  else if check_type = "exec" then some check_exec
  else if check_type = "swml_contains" then some check_swml_contains
  else none

/-- The body of the `for check in checks` loop (src/grade.py:155-177): the
CheckResult produced for one CheckSpec. -/
def gradeCheck (json_loads : String → Except String JValue) (env : Env)
    (agent_file : String) (check : CheckSpec) : CheckResult :=
  let check_type := check.type.getD ""
  match CHECK_HANDLERS json_loads check_type with
  | none =>
    { id := check.id.getD "", name := check.name.getD "",
      max_points := check.points.getD 0, points := 0, passed := false,
      output := "Unknown check type: " ++ check_type }
  | some handler =>
    let pr := handler env agent_file check
    { id := check.id.getD "", name := check.name.getD "",
      max_points := check.points.getD 0,
      points := if pr.1 then check.points.getD 0 else 0,
      passed := pr.1, output := pr.2 }

/-- Python `round(q)` to the nearest integer, halves to even (the rounding
used by `round(x, 1)`, modelled on exact rationals). -/
def pyRound (q : ℚ) : ℤ :=
  let f : ℤ := Int.fdiv q.num (q.den : ℤ)
  let r : ℚ := q - (f : ℚ)
  if r < 1/2 then f
  else if (1:ℚ)/2 < r then f + 1
  else if f % 2 = 0 then f else f + 1

/-- Python `round(q, 1)` (src/grade.py:186): round to one decimal place. -/
def round1 (q : ℚ) : ℚ :=
  (pyRound (q * 10) : ℚ) / 10

/-- src/grade.py:136-199, `grade`: run every check in rubric order, collect
per-check feedback for failed checks with a non-empty diagnostic, sum the
scores, compute the percentage and the pass verdict, and prepend the summary
feedback line. -/
def grade (json_loads : String → Except String JValue) (env : Env)
    (agent_file : String) (config : RubricConfig) : Report :=
  let checkResults := config.checks.map (gradeCheck json_loads env agent_file)
  let checkFeedback :=
    (checkResults.filter (fun r => !r.passed && r.output != "")).map
      (fun r => "**" ++ r.name ++ "**: " ++ r.output)
  let max_score : ℤ := (checkResults.map (fun r => r.max_points)).sum
  let score : ℤ := (checkResults.map (fun r => r.points)).sum
  let percentage : ℚ :=
    if max_score > 0 then round1 ((score : ℚ) / (max_score : ℚ) * 100) else 0
  let passing_score := config.assignment.passing_score.getD 70
  let passed := decide (percentage ≥ passing_score)
  let summary :=
    if passed then config.feedback.pass.getD "Passed!"
    else config.feedback.fail.getD "Not yet passing."
  { assignment := config.assignment, checks := checkResults, score := score,
    max_score := max_score, percentage := percentage, passed := passed,
    feedback := summary :: checkFeedback }

/-! ### Concrete fixtures used by counterexamples and witnesses -/

/-- A `json.loads` stub that always reports a decode error (never reached by
the fixtures below, which use checks that do not parse JSON). -/
def failParse : String → Except String JValue :=
  fun _ => Except.error "Expecting value"

/-- An external collaborator that always times out. -/
def timeoutEnv : Env := fun _ => ProcResult.timeout

/-- An external collaborator that always fails to launch. -/
def brokenEnv : Env := fun _ => ProcResult.failure "No such file or directory"

/-- Captured output of a run that exits 2 with text on stderr. -/
def exit2Out : ProcOut := ⟨2, "", "boom"⟩

/-- An external collaborator that exits 2 with text on stderr. -/
def exit2Env : Env := fun _ => ProcResult.done exit2Out

/-- A rubric check of the unrecognized type `frobnicate`, worth 10 points. -/
def frobnicateCheck : CheckSpec := { type := some "frobnicate", points := some 10 }

/-- A second unrecognized-type check, worth 5 points. -/
def mysteryCheck : CheckSpec := { type := some "mystery", points := some 5 }

/-- An `instantiate` check worth 5 points. -/
def instantiateCheck : CheckSpec := { type := some "instantiate", points := some 5 }

/-- A check with every field absent (in particular no `function`). -/
def emptyCheck : CheckSpec := {}

/-- A rubric with the single `frobnicate` check. -/
def frobnicateRubric : RubricConfig := { checks := [frobnicateCheck] }

/-- A rubric with two unrecognized checks in one order. -/
def pairRubric : RubricConfig := { checks := [frobnicateCheck, mysteryCheck] }

/-- The same two checks in the other order. -/
def pairRubricSwapped : RubricConfig := { checks := [mysteryCheck, frobnicateCheck] }

/-- The tree `{"a": {"b": [10, 20]}}` from the spec's path-resolution
examples. -/
def exampleTree : JValue :=
  JValue.obj [("a", JValue.obj [("b", JValue.arr [JValue.num 10, JValue.num 20])])]

/-! ### Theorems -/

/-- C1 (counterexample): the claim says the percentage is `0` exactly when
`max_score = 0`, but a rubric whose only check is worth 10 points and fails
gets `percentage = 0` with `max_score = 10`. -/
theorem C1_not_iff_counterexample :
    (grade failParse timeoutEnv "agent.py" frobnicateRubric).percentage = 0 ∧
    (grade failParse timeoutEnv "agent.py" frobnicateRubric).max_score ≠ 0 := by
  constructor
  · decide
  · decide

/-- C1 (amended): `percentage` is `round(score / max_score * 100, 1)` when
`max_score > 0` and `0` otherwise; the rounded value can itself be `0` even
with `max_score > 0` (for instance when `score = 0`), so `percentage = 0` is
implied by, but not equivalent to, `max_score = 0`. -/
theorem C1_percentage_formula (json_loads : String → Except String JValue)
    (env : Env) (agent_file : String) (config : RubricConfig) :
    (grade json_loads env agent_file config).percentage =
      if (grade json_loads env agent_file config).max_score > 0 then
        round1 (((grade json_loads env agent_file config).score : ℚ) /
          ((grade json_loads env agent_file config).max_score : ℚ) * 100)
      else 0 :=
  rfl

/-- C3: the Report passes exactly when its percentage is at least
`assignment.passing_score`, defaulting to 70 when that field is absent. -/
theorem C3_passed_iff (json_loads : String → Except String JValue)
    (env : Env) (agent_file : String) (config : RubricConfig) :
    (grade json_loads env agent_file config).passed = true ↔
      (grade json_loads env agent_file config).percentage ≥
        config.assignment.passing_score.getD 70 :=
  decide_eq_true_iff

/-- C5: the feedback sequence is the summary line (the configured
`feedback.pass`, default `"Passed!"`, when passed, else `feedback.fail`,
default `"Not yet passing."`) followed by one formatted line per failed check
with non-empty diagnostic, in check order; so its length is 1 plus the number
of such checks. -/
theorem C5_feedback_shape (json_loads : String → Except String JValue)
    (env : Env) (agent_file : String) (config : RubricConfig) :
    (grade json_loads env agent_file config).feedback.length =
      1 + ((grade json_loads env agent_file config).checks.filter
        (fun c => !c.passed && c.output != "")).length ∧
    (grade json_loads env agent_file config).feedback.head? =
      some (if (grade json_loads env agent_file config).passed then
        config.feedback.pass.getD "Passed!"
      else config.feedback.fail.getD "Not yet passing.") ∧
    (grade json_loads env agent_file config).feedback.tail =
      ((grade json_loads env agent_file config).checks.filter
        (fun c => !c.passed && c.output != "")).map
        (fun c => "**" ++ c.name ++ "**: " ++ c.output) := by
  refine ⟨?_, rfl, rfl⟩
  simp only [grade, List.length_cons, List.length_map]
  omega

/-- Every CheckResult records the check's configured points as `max_points`,
whichever branch of the dispatch produced it. -/
theorem gradeCheck_max_points (json_loads : String → Except String JValue)
    (env : Env) (agent_file : String) (check : CheckSpec) :
    (gradeCheck json_loads env agent_file check).max_points = check.points.getD 0 := by
  rcases h : CHECK_HANDLERS json_loads (check.type.getD "") with _ | handler <;>
    simp [gradeCheck, h]

/-- Every CheckResult's points are its `max_points` when it passed and `0`
when it failed. -/
theorem gradeCheck_points_eq (json_loads : String → Except String JValue)
    (env : Env) (agent_file : String) (check : CheckSpec) :
    (gradeCheck json_loads env agent_file check).points =
      if (gradeCheck json_loads env agent_file check).passed then
        (gradeCheck json_loads env agent_file check).max_points
      else 0 := by
  rcases h : CHECK_HANDLERS json_loads (check.type.getD "") with _ | handler <;>
    simp [gradeCheck, h]

/-- C4: `max_score` is the sum of the configured points over all checks and
`score` is the sum over the checks that passed (failed checks contribute 0);
both sums are invariant under permuting the rubric's check list. -/
theorem C4_score_sums (json_loads : String → Except String JValue) (env : Env)
    (agent_file : String) (config config' : RubricConfig)
    (hperm : config.checks.Perm config'.checks) :
    (grade json_loads env agent_file config).max_score =
      (config.checks.map (fun c => c.points.getD 0)).sum ∧
    (grade json_loads env agent_file config).score =
      (config.checks.map (fun c =>
        if (gradeCheck json_loads env agent_file c).passed then c.points.getD 0
        else 0)).sum ∧
    (grade json_loads env agent_file config).max_score =
      (grade json_loads env agent_file config').max_score ∧
    (grade json_loads env agent_file config).score =
      (grade json_loads env agent_file config').score := by
  have hmax : ∀ cfg : RubricConfig, (grade json_loads env agent_file cfg).max_score =
      (cfg.checks.map (fun c => c.points.getD 0)).sum := by
    intro cfg
    show ((cfg.checks.map (gradeCheck json_loads env agent_file)).map
      (fun r => r.max_points)).sum = _
    rw [List.map_map]
    exact congrArg List.sum (List.map_congr_left
      (fun c _ => gradeCheck_max_points json_loads env agent_file c))
  have hscore : ∀ cfg : RubricConfig, (grade json_loads env agent_file cfg).score =
      (cfg.checks.map (fun c =>
        if (gradeCheck json_loads env agent_file c).passed then c.points.getD 0
        else 0)).sum := by
    intro cfg
    show ((cfg.checks.map (gradeCheck json_loads env agent_file)).map
      (fun r => r.points)).sum = _
    rw [List.map_map]
    refine congrArg List.sum (List.map_congr_left (fun c _ => ?_))
    show (gradeCheck json_loads env agent_file c).points = _
    rw [gradeCheck_points_eq, gradeCheck_max_points]
  refine ⟨hmax config, hscore config, ?_, ?_⟩
  · rw [hmax config, hmax config']
    exact (hperm.map _).sum_eq
  · rw [hscore config, hscore config']
    exact (hperm.map _).sum_eq

/-- C4 (witness): the sums at a concrete two-check rubric and its swap. -/
theorem C4_score_sums_witness :
    (grade failParse timeoutEnv "agent.py" pairRubric).max_score =
      (pairRubric.checks.map (fun c => c.points.getD 0)).sum ∧
    (grade failParse timeoutEnv "agent.py" pairRubric).score =
      (pairRubric.checks.map (fun c =>
        if (gradeCheck failParse timeoutEnv "agent.py" c).passed then c.points.getD 0
        else 0)).sum ∧
    (grade failParse timeoutEnv "agent.py" pairRubric).max_score =
      (grade failParse timeoutEnv "agent.py" pairRubricSwapped).max_score ∧
    (grade failParse timeoutEnv "agent.py" pairRubric).score =
      (grade failParse timeoutEnv "agent.py" pairRubricSwapped).score :=
  C4_score_sums failParse timeoutEnv "agent.py" pairRubric pairRubricSwapped (by decide)

/-- A check type that is none of the five recognized tags has no handler. -/
theorem CHECK_HANDLERS_eq_none (json_loads : String → Except String JValue)
    (t : String)
    (h : t ∉ (["instantiate", "swml_valid", "function_exists", "exec",
      "swml_contains"] : List String)) :
    CHECK_HANDLERS json_loads t = none := by
  simp only [List.mem_cons, List.not_mem_nil, or_false, not_or] at h
  obtain ⟨h1, h2, h3, h4, h5⟩ := h
  simp [CHECK_HANDLERS, h1, h2, h3, h4, h5]

/-- C6: a CheckSpec with an unrecognized type grades to a failing result
worth 0 points whose diagnostic is exactly `"Unknown check type: <type>"`,
and the run is not aborted: every check of any rubric still produces its own
CheckResult. -/
theorem C6_unknown_type (json_loads : String → Except String JValue)
    (env : Env) (agent_file : String) (check : CheckSpec)
    (h : check.type.getD "" ∉ (["instantiate", "swml_valid", "function_exists",
      "exec", "swml_contains"] : List String)) :
    (gradeCheck json_loads env agent_file check).points = 0 ∧
    (gradeCheck json_loads env agent_file check).passed = false ∧
    (gradeCheck json_loads env agent_file check).output =
      "Unknown check type: " ++ check.type.getD "" ∧
    ∀ config : RubricConfig,
      (grade json_loads env agent_file config).checks =
        config.checks.map (gradeCheck json_loads env agent_file) := by
  have hnone := CHECK_HANDLERS_eq_none json_loads _ h
  refine ⟨?_, ?_, ?_, fun config => rfl⟩ <;> simp [gradeCheck, hnone]

/-- C6 (witness): the unknown type `"frobnicate"` worth 10 points. -/
theorem C6_unknown_type_witness :
    (gradeCheck failParse timeoutEnv "agent.py" frobnicateCheck).points = 0 ∧
    (gradeCheck failParse timeoutEnv "agent.py" frobnicateCheck).passed = false ∧
    (gradeCheck failParse timeoutEnv "agent.py" frobnicateCheck).output =
      "Unknown check type: " ++ frobnicateCheck.type.getD "" ∧
    ∀ config : RubricConfig,
      (grade failParse timeoutEnv "agent.py" config).checks =
        config.checks.map (gradeCheck failParse timeoutEnv "agent.py") :=
  C6_unknown_type failParse timeoutEnv "agent.py" frobnicateCheck (by decide)

/-- C7: for a check of any recognized type, a timeout of the external
invocation is absorbed into that check's single CheckResult as
`(passed = false, output = "Timeout exceeded", points = 0)`; a launch failure
likewise yields `(false, <exception message>)` and a non-zero exit code
yields `(false, captured stderr)`; the run still produces a CheckResult for
every rubric entry. -/
theorem C7_error_absorption (json_loads : String → Except String JValue)
    (agent_file : String) (check : CheckSpec)
    (hknown : check.type.getD "" ∈ (["instantiate", "swml_valid",
      "function_exists", "exec", "swml_contains"] : List String))
    (envT envF envC : Env) (msg : String) (o : ProcOut)
    (hT : ∀ cmd, envT cmd = ProcResult.timeout)
    (hF : ∀ cmd, envF cmd = ProcResult.failure msg)
    (ho : o.returncode ≠ 0)
    (hC : ∀ cmd, envC cmd = ProcResult.done o)
    (config : RubricConfig) :
    (gradeCheck json_loads envT agent_file check).passed = false ∧
    (gradeCheck json_loads envT agent_file check).output = "Timeout exceeded" ∧
    (gradeCheck json_loads envT agent_file check).points = 0 ∧
    (gradeCheck json_loads envF agent_file check).passed = false ∧
    (gradeCheck json_loads envF agent_file check).output = msg ∧
    (gradeCheck json_loads envC agent_file check).passed = false ∧
    (gradeCheck json_loads envC agent_file check).output = o.stderr ∧
    (grade json_loads envT agent_file config).checks.length =
      config.checks.length := by
  have hlen : (grade json_loads envT agent_file config).checks.length =
      config.checks.length := by
    show (config.checks.map _).length = _
    exact List.length_map _ _
  simp only [List.mem_cons, List.not_mem_nil, or_false] at hknown
  rcases hknown with h | h | h | h | h <;>
    refine ⟨?_, ?_, ?_, ?_, ?_, ?_, ?_, hlen⟩ <;>
      simp [gradeCheck, CHECK_HANDLERS, h, check_instantiate, check_swml_valid,
        check_function_exists, check_exec, check_swml_contains,
        run_swaig_test, hT, hF, hC, ho, decide_eq_false_iff_not]

/-- C7 (witness): an `instantiate` check under a timing-out collaborator, a
collaborator whose launch fails, and one that exits 2. -/
theorem C7_error_absorption_witness :
    (gradeCheck failParse timeoutEnv "agent.py" instantiateCheck).passed = false ∧
    (gradeCheck failParse timeoutEnv "agent.py" instantiateCheck).output =
      "Timeout exceeded" ∧
    (gradeCheck failParse timeoutEnv "agent.py" instantiateCheck).points = 0 ∧
    (gradeCheck failParse brokenEnv "agent.py" instantiateCheck).passed = false ∧
    (gradeCheck failParse brokenEnv "agent.py" instantiateCheck).output =
      "No such file or directory" ∧
    (gradeCheck failParse exit2Env "agent.py" instantiateCheck).passed = false ∧
    (gradeCheck failParse exit2Env "agent.py" instantiateCheck).output =
      exit2Out.stderr ∧
    (grade failParse timeoutEnv "agent.py" frobnicateRubric).checks.length =
      frobnicateRubric.checks.length :=
  C7_error_absorption failParse "agent.py" instantiateCheck (by decide)
    timeoutEnv brokenEnv exit2Env "No such file or directory" exit2Out
    (fun _ => rfl) (fun _ => rfl) (by decide) (fun _ => rfl) frobnicateRubric

/-- The boolean prefix test agrees with the existence of a completing
suffix. -/
theorem isPrefixOf_iff (l₁ l₂ : List Char) :
    l₁.isPrefixOf l₂ = true ↔ ∃ t, l₁ ++ t = l₂ := by
  induction l₁ generalizing l₂ with
  | nil => simp [List.isPrefixOf]
  | cons a as ih =>
    cases l₂ with
    | nil => simp [List.isPrefixOf]
    | cons b bs =>
      simp only [List.isPrefixOf, Bool.and_eq_true, beq_iff_eq, ih,
        List.cons_append, List.cons.injEq]
      constructor
      · rintro ⟨rfl, t, rfl⟩
        exact ⟨t, rfl, rfl⟩
      · rintro ⟨t, rfl, rfl⟩
        exact ⟨rfl, t, rfl⟩

/-- The substring scan agrees with the existence of a decomposition
`hay = l ++ needle ++ r`. -/
theorem listContains_iff (needle hay : List Char) :
    listContains needle hay = true ↔ ∃ l r, hay = l ++ (needle ++ r) := by
  induction hay with
  | nil =>
    simp only [listContains, List.isEmpty_iff]
    constructor
    · rintro rfl
      exact ⟨[], [], rfl⟩
    · rintro ⟨l, r, h⟩
      rcases List.append_eq_nil.mp h.symm with ⟨rfl, h2⟩
      exact (List.append_eq_nil.mp h2).1
  | cons c rest ih =>
    simp only [listContains, Bool.or_eq_true, isPrefixOf_iff, ih]
    constructor
    · rintro (⟨t, h⟩ | ⟨l, r, h⟩)
      · exact ⟨[], t, by simp [h]⟩
      · exact ⟨c :: l, r, by simp [h]⟩
    · rintro ⟨l, r, h⟩
      cases l with
      | nil =>
        refine Or.inl ⟨r, ?_⟩
        simpa using h.symm
      | cons x xs =>
        simp only [List.cons_append, List.cons.injEq] at h
        exact Or.inr ⟨xs, r, h.2⟩

/-- Python `needle in hay` holds exactly when `needle` occurs contiguously
inside `hay`. -/
theorem strContains_iff (hay needle : String) :
    strContains hay needle = true ↔
      ∃ l r, hay.toList = l ++ (needle.toList ++ r) :=
  listContains_iff needle.toList hay.toList

/-- The empty string is a substring of every string, as in Python. -/
theorem strContains_empty_needle (s : String) : strContains s "" = true := by
  unfold strContains
  cases s.toList with
  | nil => rfl
  | cons c rest => rfl

/-- The `stdout_contains` scan of `check_exec` finds nothing missing exactly
when every expected string is (case-insensitively) present. -/
theorem firstMissingOutput_eq_none (stdout_lower : String) (l : List String) :
    firstMissingOutput stdout_lower l = none ↔
      ∀ s ∈ l, strContains stdout_lower (strLower s) = true := by
  induction l with
  | nil => simp [firstMissingOutput]
  | cons s rest ih =>
    by_cases h : strContains stdout_lower (strLower s) = true
    · simp [firstMissingOutput, h, ih]
    · simp [firstMissingOutput, h]

/-- When the `stdout_contains` scan reports a missing string, that string is
one of the expected ones and is indeed not present. -/
theorem firstMissingOutput_some (stdout_lower : String) (l : List String)
    (s : String) (h : firstMissingOutput stdout_lower l = some s) :
    s ∈ l ∧ strContains stdout_lower (strLower s) = false := by
  induction l with
  | nil => simp [firstMissingOutput] at h
  | cons x rest ih =>
    by_cases hx : strContains stdout_lower (strLower x) = true
    · rw [firstMissingOutput, if_pos hx] at h
      rcases ih h with ⟨h1, h2⟩
      exact ⟨List.mem_cons_of_mem _ h1, h2⟩
    · rw [firstMissingOutput, if_neg hx] at h
      rcases Option.some.injEq .. ▸ h with rfl
      exact ⟨List.mem_cons_self _ _, by simp at hx; exact hx⟩

/-- The `require[].text` scan of `check_swml_contains` finds nothing missing
exactly when every required text (the empty default included, vacuously) is a
literal substring of stdout. -/
theorem firstMissingText_eq_none (stdout : String) (l : List Require) :
    firstMissingText stdout l = none ↔
      ∀ req ∈ l, strContains stdout (req.text.getD "") = true := by
  induction l with
  | nil => simp [firstMissingText]
  | cons req rest ih =>
    by_cases hx : req.text.getD "" = ""
    · simp [firstMissingText, hx, ih, strContains_empty_needle]
    · by_cases hc : strContains stdout (req.text.getD "") = true
      · simp [firstMissingText, hx, hc, ih]
      · simp [firstMissingText, hx, hc]

/-- When the `require[].text` scan reports a missing text, some require entry
has a text that is not a substring of stdout. -/
theorem firstMissingText_some (stdout : String) (l : List Require) (t : String)
    (h : firstMissingText stdout l = some t) :
    ∃ req ∈ l, strContains stdout (req.text.getD "") = false := by
  induction l with
  | nil => simp [firstMissingText] at h
  | cons req rest ih =>
    by_cases hc : ((req.text.getD "" != "") &&
        (! strContains stdout (req.text.getD ""))) = true
    · refine ⟨req, List.mem_cons_self _ _, ?_⟩
      simp only [Bool.and_eq_true, bne_iff_ne, Bool.not_eq_true'] at hc
      exact hc.2
    · rw [firstMissingText] at h
      simp only [hc] at h
      rw [if_neg (by simpa using hc)] at h
      rcases ih h with ⟨req2, hm, hf⟩
      exact ⟨req2, List.mem_cons_of_mem _ hm, hf⟩

/-- The `exec` predicate: pass exactly when the collaborator exits 0 and
every expected string occurs case-insensitively in stdout. -/
theorem check_exec_passes_iff (env : Env) (agent_file : String)
    (check : CheckSpec) :
    (check_exec env agent_file check).1 = true ↔
      ((run_swaig_test env agent_file (execArgs check) check.agent_class).1 = 0 ∧
       ∀ s ∈ check.expect_stdout_contains, ∃ l r,
         (strLower (run_swaig_test env agent_file (execArgs check)
           check.agent_class).2.1).toList = l ++ ((strLower s).toList ++ r)) := by
  simp only [← strContains_iff]
  unfold check_exec
  by_cases h0 : (run_swaig_test env agent_file (execArgs check)
      check.agent_class).1 = 0
  · rcases hm : firstMissingOutput
        (strLower (run_swaig_test env agent_file (execArgs check)
          check.agent_class).2.1) check.expect_stdout_contains with _ | s
    · simp only [h0, hm]
      simp
      exact (firstMissingOutput_eq_none _ _).mp hm
    · rcases firstMissingOutput_some _ _ _ hm with ⟨hmem, hfail⟩
      simp only [h0, ne_eq, not_true_eq_false, if_neg, if_false, hm]
      constructor
      · rintro ⟨⟩
      · rintro ⟨-, hall⟩
        rw [hall s hmem] at hfail
        cases hfail
  · simp [h0]

/-- The `swml_contains` predicate: pass exactly when the collaborator exits 0
and every required text occurs literally (case-sensitively) in raw stdout. -/
theorem check_swml_contains_passes_iff (env : Env) (agent_file : String)
    (check : CheckSpec) :
    (check_swml_contains env agent_file check).1 = true ↔
      ((run_swaig_test env agent_file ["--dump-swml", "--raw"]
          check.agent_class).1 = 0 ∧
       ∀ req ∈ check.require, ∃ l r,
         (run_swaig_test env agent_file ["--dump-swml", "--raw"]
           check.agent_class).2.1.toList = l ++ ((req.text.getD "").toList ++ r)) := by
  simp only [← strContains_iff]
  unfold check_swml_contains
  by_cases h0 : (run_swaig_test env agent_file ["--dump-swml", "--raw"]
      check.agent_class).1 = 0
  · rcases hm : firstMissingText
        (run_swaig_test env agent_file ["--dump-swml", "--raw"]
          check.agent_class).2.1 check.require with _ | t
    · simp only [h0, hm]
      simp
      exact (firstMissingText_eq_none _ _).mp hm
    · rcases firstMissingText_some _ _ _ hm with ⟨req, hmem, hfail⟩
      simp only [h0, ne_eq, not_true_eq_false, if_neg, if_false, hm]
      constructor
      · rintro ⟨⟩
      · rintro ⟨-, hall⟩
        rw [hall req hmem] at hfail
        cases hfail
  · simp [h0]

/-- C8: `exec` passes iff exit 0 and every `expect.stdout_contains` entry
appears case-insensitively (both sides lowercased) as a substring of stdout,
while `swml_contains` passes iff exit 0 and every `require[].text` appears as
a literal, case-sensitive substring of raw stdout; the asymmetry is real:
`"result: ok"` is found case-insensitively in `"Result: OK"` but not as a
literal substring. -/
theorem C8_case_sensitivity (env : Env) (agent_file : String)
    (check : CheckSpec) :
    ((check_exec env agent_file check).1 = true ↔
      ((run_swaig_test env agent_file (execArgs check) check.agent_class).1 = 0 ∧
       ∀ s ∈ check.expect_stdout_contains, ∃ l r,
         (strLower (run_swaig_test env agent_file (execArgs check)
           check.agent_class).2.1).toList = l ++ ((strLower s).toList ++ r))) ∧
    ((check_swml_contains env agent_file check).1 = true ↔
      ((run_swaig_test env agent_file ["--dump-swml", "--raw"]
          check.agent_class).1 = 0 ∧
       ∀ req ∈ check.require, ∃ l r,
         (run_swaig_test env agent_file ["--dump-swml", "--raw"]
           check.agent_class).2.1.toList = l ++ ((req.text.getD "").toList ++ r))) ∧
    strContains (strLower "Result: OK") (strLower "result: ok") = true ∧
    strContains "Result: OK" "result: ok" = false :=
  ⟨check_exec_passes_iff env agent_file check,
   check_swml_contains_passes_iff env agent_file check,
   by decide, by decide⟩

/-- C2: `check_path_exists` is the walk `resolveParts` over the split
segments `pathParts`; a non-empty segment steps through `lookupStep` (key
lookup in a mapping, parsed-index lookup in a sequence, failure anywhere
else, in particular whenever the step yields nothing); an empty segment is
skipped; and on the spec's three examples it answers true, false, false. -/
theorem C2_path_resolution (data cur : JValue) (part : String)
    (rest : List String) (hpart : part ≠ "") (path : String) :
    check_path_exists data path = resolveParts (pathParts path) data ∧
    resolveParts (part :: rest) cur =
      (match lookupStep cur part with
       | some v => resolveParts rest v
       | none => false) ∧
    resolveParts ("" :: rest) cur = resolveParts rest cur ∧
    check_path_exists exampleTree "a.b[1]" = true ∧
    check_path_exists (JValue.obj [("a", JValue.num 1)]) "a.b" = false ∧
    check_path_exists (JValue.arr [JValue.num 1, JValue.num 2]) "5" = false := by
  refine ⟨rfl, ?_, ?_, by decide, by decide, by decide⟩
  · cases cur <;> simp only [resolveParts, lookupStep, if_neg hpart]
  · simp [resolveParts]

/-- C2 (witness): the step equation at a concrete non-empty segment and the
three concrete resolution examples. -/
theorem C2_path_resolution_witness :
    check_path_exists exampleTree "a.b[1]" =
      resolveParts (pathParts "a.b[1]") exampleTree ∧
    resolveParts ("a" :: []) exampleTree =
      (match lookupStep exampleTree "a" with
       | some v => resolveParts [] v
       | none => false) ∧
    resolveParts ("" :: []) exampleTree = resolveParts [] exampleTree ∧
    check_path_exists exampleTree "a.b[1]" = true ∧
    check_path_exists (JValue.obj [("a", JValue.num 1)]) "a.b" = false ∧
    check_path_exists (JValue.arr [JValue.num 1, JValue.num 2]) "5" = false :=
  C2_path_resolution exampleTree exampleTree "a" [] (by decide) "a.b[1]"

/-- A successful digit scan means every scanned character is a digit. -/
theorem digitsToNat_isDigit (cs : List Char) (acc n : ℕ)
    (h : digitsToNat cs acc = some n) : ∀ c ∈ cs, c.isDigit = true := by
  induction cs generalizing acc with
  | nil =>
    intro c hc
    cases hc
  | cons c rest ih =>
    intro x hx
    rw [digitsToNat] at h
    by_cases hd : c.isDigit = true
    · rw [if_pos hd] at h
      rcases List.mem_cons.mp hx with rfl | hx
      · exact hd
      · exact ih _ h x hx
    · rw [if_neg hd] at h
      cases h

/-- A string accepted by the integer parser consists of digits apart from a
possible sign character. -/
theorem parsePyInt_chars (s : String) (i : ℤ) (h : parsePyInt s = some i) :
    ∀ c ∈ s.toList, c.isDigit = true ∨ c = '-' ∨ c = '+' := by
  unfold parsePyInt at h
  intro c hc
  split at h
  · next heq =>
    rw [heq] at hc
    cases hc
  · next rest heq =>
    by_cases hemp : rest.isEmpty
    · rw [if_pos hemp] at h
      cases h
    · rw [if_neg hemp] at h
      rcases Option.map_eq_some'.mp h with ⟨n, hn, -⟩
      rw [heq] at hc
      rcases List.mem_cons.mp hc with rfl | hcr
      · exact Or.inr (Or.inl rfl)
      · exact Or.inl (digitsToNat_isDigit rest 0 n hn c hcr)
  · next rest heq =>
    by_cases hemp : rest.isEmpty
    · rw [if_pos hemp] at h
      cases h
    · rw [if_neg hemp] at h
      rcases Option.map_eq_some'.mp h with ⟨n, hn, -⟩
      rw [heq] at hc
      rcases List.mem_cons.mp hc with rfl | hcr
      · exact Or.inr (Or.inr rfl)
      · exact Or.inl (digitsToNat_isDigit rest 0 n hn c hcr)
  · rcases Option.map_eq_some'.mp h with ⟨n, hn, -⟩
    exact Or.inl (digitsToNat_isDigit _ 0 n hn c hc)

/-- Mapping the bracket-to-dot replacement over a list without `[` changes
nothing. -/
theorem map_no_bracket (l : List Char) (h : ∀ c ∈ l, c ≠ '[') :
    l.map (fun c => if c = '[' then '.' else c) = l := by
  induction l with
  | nil => rfl
  | cons c rest ih =>
    rw [List.map_cons, if_neg (h c (List.mem_cons_self _ _)),
      ih fun x hx => h x (List.mem_cons_of_mem _ hx)]

/-- Filtering out `]` from a list without `]` changes nothing. -/
theorem filter_no_bracket (l : List Char) (h : ∀ c ∈ l, c ≠ ']') :
    l.filter (fun c => c ≠ ']') = l :=
  List.filter_eq_self.mpr fun a ha => decide_eq_true (h a ha)

/-- Splitting a dot-free list yields the list itself as the only group. -/
theorem splitOnDot_no_dot (l : List Char) (h : ∀ c ∈ l, c ≠ '.') :
    splitOnDot l = [l] := by
  induction l with
  | nil => rfl
  | cons c rest ih =>
    have hc : c ≠ '.' := h c (List.mem_cons_self _ _)
    have hr : splitOnDot rest = [rest] :=
      ih fun x hx => h x (List.mem_cons_of_mem _ hx)
    simp [splitOnDot, hr, hc]

/-- A path without `.`, `[` and `]` is a single segment: itself. -/
theorem pathParts_of_no_sep (s : String)
    (h : ∀ c ∈ s.toList, c ≠ '.' ∧ c ≠ '[' ∧ c ≠ ']') : pathParts s = [s] := by
  unfold pathParts
  rw [map_no_bracket _ fun c hc => (h c hc).2.1,
    filter_no_bracket _ fun c hc => (h c hc).2.2,
    splitOnDot_no_dot _ fun c hc => (h c hc).1]
  rfl

/-- C9: when the current node is a sequence, any segment that parses as an
integer `i` with `-len ≤ i < len` resolves — Python's negative indices are
accepted, so resolution is not restricted to indices in `[0, len)`. -/
theorem C9_negative_index (xs : List JValue) (s : String) (i : ℤ)
    (hparse : parsePyInt s = some i)
    (hlow : -(xs.length : ℤ) ≤ i) (hhigh : i < (xs.length : ℤ)) :
    check_path_exists (JValue.arr xs) s = true := by
  have hchars := parsePyInt_chars s i hparse
  have hsep : ∀ c ∈ s.toList, c ≠ '.' ∧ c ≠ '[' ∧ c ≠ ']' := by
    intro c hc
    rcases hchars c hc with hd | rfl | rfl
    · exact ⟨fun hc2 => absurd (hc2 ▸ hd) (by decide),
        fun hc2 => absurd (hc2 ▸ hd) (by decide),
        fun hc2 => absurd (hc2 ▸ hd) (by decide)⟩
    · exact ⟨by decide, by decide, by decide⟩
    · exact ⟨by decide, by decide, by decide⟩
  have hne : s ≠ "" := by
    intro hs
    rw [hs, show parsePyInt "" = none from rfl] at hparse
    cases hparse
  have hidx : ∃ v, pyIndex xs i = some v := by
    have hcond : 0 ≤ (if i < 0 then i + (xs.length : ℤ) else i) ∧
        (if i < 0 then i + (xs.length : ℤ) else i) < (xs.length : ℤ) := by
      by_cases hneg : i < 0
      · rw [if_pos hneg]
        constructor <;> omega
      · rw [if_neg hneg]
        constructor <;> omega
    have hsome : (pyIndex xs i).isSome = true := by
      simp only [pyIndex]
      rw [dif_pos hcond]
      rfl
    exact Option.isSome_iff_exists.mp hsome
  obtain ⟨v, hv⟩ := hidx
  unfold check_path_exists
  rw [pathParts_of_no_sep s hsep]
  simp [resolveParts, hne, hparse, hv]

/-- C9 (witness): `-1` resolves in the two-element list `[1, 2]`. -/
theorem C9_negative_index_witness :
    check_path_exists (JValue.arr [JValue.num 1, JValue.num 2]) "-1" = true :=
  C9_negative_index [JValue.num 1, JValue.num 2] "-1" (-1) (by decide)
    (by decide) (by decide)

/-- Walking a list of empty segments visits nothing and succeeds. -/
theorem resolveParts_all_empty (parts : List String) (data : JValue)
    (h : ∀ p ∈ parts, p = "") : resolveParts parts data = true := by
  induction parts generalizing data with
  | nil => rfl
  | cons p rest ih =>
    have hp : p = "" := h p (List.mem_cons_self _ _)
    subst hp
    have hstep : resolveParts ("" :: rest) data = resolveParts rest data := by
      simp [resolveParts]
    rw [hstep]
    exact ih data fun x hx => h x (List.mem_cons_of_mem _ hx)

/-- Splitting an all-dot list yields only empty groups. -/
theorem splitOnDot_all_dot (l : List Char) (h : ∀ c ∈ l, c = '.') :
    ∀ g ∈ splitOnDot l, g = [] := by
  induction l with
  | nil =>
    intro g hg
    rcases List.mem_singleton.mp hg with rfl
    rfl
  | cons c rest ih =>
    intro g hg
    have hc : c = '.' := h c (List.mem_cons_self _ _)
    subst hc
    simp only [splitOnDot, if_pos rfl] at hg
    rcases List.mem_cons.mp hg with rfl | hg2
    · rfl
    · exact ih (fun x hx => h x (List.mem_cons_of_mem _ hx)) g hg2

/-- C10: a `function_exists` check whose `function` field is absent or empty
passes exactly when the collaborator exits 0 (the empty string is a substring
of any stdout); and `check_path_exists` answers true on the empty path and on
any path made only of the separator characters `.`, `[`, `]`, since every
segment is dropped as empty. -/
theorem C10_empty_defaults (env : Env) (agent_file : String) (check : CheckSpec)
    (hfunc : check.function.getD "" = "")
    (data : JValue) (path : String)
    (hsep : ∀ c ∈ path.toList, c = '.' ∨ c = '[' ∨ c = ']') :
    ((check_function_exists env agent_file check).1 = true ↔
      (run_swaig_test env agent_file ["--list-tools"] check.agent_class).1 = 0) ∧
    check_path_exists data "" = true ∧
    check_path_exists data path = true := by
  refine ⟨?_, rfl, ?_⟩
  · by_cases h0 : (run_swaig_test env agent_file ["--list-tools"]
        check.agent_class).1 = 0
    · simp [check_function_exists, h0, hfunc, strContains_empty_needle]
    · simp [check_function_exists, h0]
  · have hparts : ∀ g ∈ pathParts path, g = "" := by
      intro g hg
      unfold pathParts at hg
      rcases List.mem_map.mp hg with ⟨cs, hcs, rfl⟩
      have hdots : ∀ c ∈ (path.toList.map
          (fun c => if c = '[' then '.' else c)).filter (fun c => c ≠ ']'),
          c = '.' := by
        intro c hc
        rcases List.mem_filter.mp hc with ⟨hcmem, hcne⟩
        rcases List.mem_map.mp hcmem with ⟨c0, hc0, rfl⟩
        rcases hsep c0 hc0 with rfl | rfl | rfl
        · rfl
        · rfl
        · exact absurd rfl (of_decide_eq_true hcne)
      rw [splitOnDot_all_dot _ hdots cs hcs]
    exact resolveParts_all_empty _ data hparts

/-- C10 (witness): an absent function field under a timing-out collaborator,
the empty path, and the separator-only path `".[]."`. -/
theorem C10_empty_defaults_witness :
    ((check_function_exists timeoutEnv "agent.py" emptyCheck).1 = true ↔
      (run_swaig_test timeoutEnv "agent.py" ["--list-tools"]
        emptyCheck.agent_class).1 = 0) ∧
    check_path_exists exampleTree "" = true ∧
    check_path_exists exampleTree ".[]." = true :=
  C10_empty_defaults timeoutEnv "agent.py" emptyCheck (by decide) exampleTree
    ".[]." (by decide)

end Grader
